import Mathlib

/-!
Shallow embedding of `src/mm_streamlit.py` (March Madness Streamlit app).

The script is a linear pandas pipeline over one CSV table:
  line 15   mm = pd.read_csv(path)
  line 25-27  mm_sub = mm.loc[mm[TW] == No, <11 columns>]   (KeyError when a column is absent)
  line 29-30  mm_sub = mm_sub[<10 columns>]                 (drops the Tournament Winner column)
  line 32   mm_sub = mm_sub[(eFGPct != 0) & (AdjDE != 0)]
  line 34-39  rename 4 columns to short aliases (pure renaming; modelled by field names)
  line 41   mm_sub[MM] = (mm_sub[MM] == March Madness).astype(int)
  line 46-47  nan_array = mm_sub.isna().astype(int)         (missing-value map input, BEFORE line 62)
  line 56-57  x ticks = linspace(0, num_mm-1, min(10, num_mm)).astype(int)
  line 62   mm_sub = mm_sub[mm_sub[Season] > 2006]          (table used by heatmap / histogram / scatter)
  line 81-84  correlation matrix over 8 selected columns, Pearson, rounded to 3 decimals
  line 105-113  histogram: px.histogram(mm_sub, x=plot_col, nbins=30), plot_col from an 8-option set

Cells are modelled as exact values: a number (ℚ), a string, or `na` (pandas NaN).
pandas comparison semantics used by the script and mirrored below:
  NaN == s  is False;  NaN != 0  is True;  NaN > 2006  is False.
-/

/-- Cell values of the table: numbers, strings, or missing (pandas NaN). -/
inductive Val where
  | num (q : ℚ)
  | str (s : String)
  | na
deriving DecidableEq

/-- A raw CSV row: association list from column names to cell values. -/
abbrev Row := List (String × Val)

/-- Value of column `c` in raw row `r`; a column a row does not carry is missing. -/
def cellOf (r : Row) (c : String) : Val :=
  match r.lookup c with
  | some v => v
  | none => Val.na

/-- The raw table read at line 15: a column list (pandas `mm.columns`) plus rows. -/
structure DataFrame where
  cols : List String
  rows : List Row
deriving DecidableEq

/-- The 11 columns requested by `mm.loc` at lines 25-27 (mask column included). -/
def requiredCols : List String :=
  ["Season", "Mapped ESPN Team Name", "Adjusted Offensive Efficiency",
   "Adjusted Defensive Efficiency", "eFGPct", "TOPct", "AdjTempo", "PGOR", "PGDR",
   "Tournament Winner?", "Post-Season Tournament"]

/-- A row of `mm_sub` right after lines 25-27 (the 11 projected columns). -/
structure SubRow where
  season : Val
  school : Val
  adjOE : Val
  adjDE : Val
  eFGPct : Val
  tOPct : Val
  adjTempo : Val
  pGOR : Val
  pGDR : Val
  winner : Val
  postSeason : Val
deriving DecidableEq

/-- Projection of a raw row to the 11 columns of lines 26-27. -/
def toSubRow (r : Row) : SubRow where
  season := cellOf r ("Season")
  school := cellOf r ("Mapped ESPN Team Name")
  adjOE := cellOf r ("Adjusted Offensive Efficiency")
  adjDE := cellOf r ("Adjusted Defensive Efficiency")
  eFGPct := cellOf r ("eFGPct")
  tOPct := cellOf r ("TOPct")
  adjTempo := cellOf r ("AdjTempo")
  pGOR := cellOf r ("PGOR")
  pGDR := cellOf r ("PGDR")
  winner := cellOf r ("Tournament Winner?")
  postSeason := cellOf r ("Post-Season Tournament")

/-- Row mask of line 25: `mm[Tournament Winner?] == No`.
pandas elementwise string equality: NaN (and any non-matching value) gives False. -/
def winnerMask (r : Row) : Bool :=
  decide (cellOf r ("Tournament Winner?") = Val.str ("No"))

/-- Lines 25-27: `mm.loc[mask, columns]`. pandas raises a KeyError (uncaught in the
script) when any requested column, or the mask column, is absent from `mm.columns`;
otherwise it keeps the rows passing the mask and projects them to the 11 columns. -/
def locStep (df : DataFrame) : Except String (List SubRow) :=
  if requiredCols.all (fun c => df.cols.contains c) then
    Except.ok ((df.rows.filter winnerMask).map toSubRow)
  else
    Except.error ("KeyError")

/-- A row of `mm_sub` after the line 29-30 projection (10 columns) with the line 34-39
renames applied as field names; `marchMadness` is the `Post-Season Tournament` column,
renamed to the March Madness label column at line 37 and overwritten at line 41. -/
structure CleanRow where
  season : Val
  school : Val
  adjOE : Val
  adjDE : Val
  eFGPct : Val
  tOPct : Val
  adjTempo : Val
  pGOR : Val
  pGDR : Val
  marchMadness : Val
deriving DecidableEq

/-- Lines 29-30: drop the `Tournament Winner?` column, keep the other 10. -/
def dropWinner (r : SubRow) : CleanRow where
  season := r.season
  school := r.school
  adjOE := r.adjOE
  adjDE := r.adjDE
  eFGPct := r.eFGPct
  tOPct := r.tOPct
  adjTempo := r.adjTempo
  pGOR := r.pGOR
  pGDR := r.pGDR
  marchMadness := r.postSeason

/-- Line 32 mask: `(eFGPct != 0) & (AdjDE != 0)`.
pandas `!=` with NaN on the left is True, so a missing cell passes this filter. -/
def zeroKeep (r : CleanRow) : Bool :=
  decide (r.eFGPct ≠ Val.num 0 ∧ r.adjDE ≠ Val.num 0)

/-- Line 41: the label column becomes `(column == March Madness).astype(int)`.
Exactly the string match gives 1; every other value, NaN included, gives 0. -/
def deriveLabel (r : CleanRow) : CleanRow :=
  { r with marchMadness :=
      Val.num (if r.marchMadness = Val.str ("March Madness") then 1 else 0) }

/-- State of `mm_sub` at line 41, the table the missing-values plot of lines 46-59
reads: winner filter, projection, zero filter, renames and label derivation applied,
but NOT the `Season > 2006` filter of line 62, which runs after the plot. -/
def tableAtMissingPlot (df : DataFrame) : Except String (List CleanRow) :=
  (locStep df).map (fun l => ((l.map dropWinner).filter zeroKeep).map deriveLabel)

/-- pandas `series > c` semantics for one cell: a number compares, NaN gives False. -/
def gtNum (v : Val) (c : ℚ) : Bool :=
  match v with
  | Val.num q => decide (c < q)
  | _ => false

/-- Line 62 mask: `mm_sub[Season] > 2006`. -/
def seasonKeep (r : CleanRow) : Bool :=
  gtNum r.season 2006

/-- The cleaned table after line 62 — the table consumed by the correlation heatmap,
the histogram and the scatter plot. -/
def cleanedTable (df : DataFrame) : Except String (List CleanRow) :=
  (tableAtMissingPlot df).map (fun l => l.filter seasonKeep)

/-- The 10 cells of a cleaned row, in the column order of lines 29-30. -/
def cleanCells (r : CleanRow) : List Val :=
  [r.season, r.school, r.adjOE, r.adjDE, r.eFGPct, r.tOPct, r.adjTempo,
   r.pGOR, r.pGDR, r.marchMadness]

/-- One row of `mm_sub.isna().astype(int)` (lines 46-47): 1 marks a missing cell. -/
def isnaRow (r : CleanRow) : List Nat :=
  (cleanCells r).map (fun v => if v = Val.na then 1 else 0)

/-- Lines 46-47: `nan_array`, the 0/1 grid of missing cells, one row per table row. -/
def nanArray (t : List CleanRow) : List (List Nat) :=
  t.map isnaRow

/-- The grid the missing-values plot actually renders: `nan_array` computed from
`mm_sub` as it stands at line 47, i.e. before the line 62 season filter. -/
def missingGrid (df : DataFrame) : Except String (List (List Nat)) :=
  (tableAtMissingPlot df).map nanArray

/-- Model of `np.linspace(0, stop, k).astype(int)` for `stop ≥ 0`: `k` evenly spaced
points from 0 to `stop`, truncated to integers (floor, all points nonnegative). -/
def linspaceTrunc (stop : ℤ) (k : Nat) : List ℤ :=
  if k ≤ 1 then List.replicate k 0
  else List.map (fun i : Nat => ((i : ℤ) * stop) / ((k : ℤ) - 1)) (List.range k)

/-- Lines 56-57: the x-axis tick positions of the missing-values plot,
`np.linspace(0, num_mm - 1, min(10, num_mm)).astype(int)` with `num_mm` the number
of rows of `nan_array`. -/
def missingXTicks (t : List CleanRow) : List ℤ :=
  linspaceTrunc (((nanArray t).length : ℤ) - 1) (min 10 (nanArray t).length)

/-- The 8 plottable columns of the dropdown option set (lines 105-106). -/
inductive ColId where
  | adjOE | adjDE | eFGPct | tOPct | adjTempo | pGOR | pGDR | marchMadness
deriving DecidableEq

/-- Lines 105-106: `opts`, the 8-option dropdown set. -/
def opts : List ColId :=
  [ColId.adjOE, ColId.adjDE, ColId.eFGPct, ColId.tOPct,
   ColId.adjTempo, ColId.pGOR, ColId.pGDR, ColId.marchMadness]

/-- Cell of a cleaned row at a selected column. -/
def colCell (c : ColId) (r : CleanRow) : Val :=
  match c with
  | ColId.adjOE => r.adjOE
  | ColId.adjDE => r.adjDE
  | ColId.eFGPct => r.eFGPct
  | ColId.tOPct => r.tOPct
  | ColId.adjTempo => r.adjTempo
  | ColId.pGOR => r.pGOR
  | ColId.pGDR => r.pGDR
  | ColId.marchMadness => r.marchMadness

/-- What line 113 hands to the plotting library: the selected column's data and the
requested bin count `nbins=30`. -/
structure HistSpec where
  xdata : List Val
  nbins : Nat
deriving DecidableEq

/-- Line 113: `px.histogram(mm_sub, x=plot_col, nbins=30)`. -/
def figHist (t : List CleanRow) (c : ColId) : HistSpec where
  xdata := t.map (colCell c)
  nbins := 30

/-- Numeric reading of a cell for correlation: NaN (and non-numeric cells; none of
the 8 selected columns holds strings) is treated as missing, as pandas `corr` does. -/
def valToNum : Val → Option ℚ
  | Val.num q => some q
  | Val.str _ => none
  | Val.na => none

/-- One selected column of the cleaned table, as numbers-or-missing. -/
def colNum (t : List CleanRow) (c : ColId) : List (Option ℚ) :=
  t.map (fun r => valToNum (colCell c r))

/-- Line 81: `selected_features`, in source order. The line 82 comprehension keeps
every entry, since all 8 are columns of `mm_sub`. -/
def selectedFeatures : List ColId :=
  [ColId.eFGPct, ColId.tOPct, ColId.adjTempo, ColId.adjOE, ColId.adjDE,
   ColId.pGOR, ColId.pGDR, ColId.marchMadness]

/-- Feature at index `i` of `selected_features`. -/
def featAt (i : Fin 8) : ColId :=
  selectedFeatures.getD i.val ColId.eFGPct

/-- Pairwise-complete observations of two columns, as pandas `corr` uses: keep the
positions where both cells are numbers. -/
def paired : List (Option ℚ) → List (Option ℚ) → List (ℚ × ℚ)
  | [], _ => []
  | _, [] => []
  | x :: xs, y :: ys =>
    match x, y with
    | some a, some b => (a, b) :: paired xs ys
    | _, _ => paired xs ys

/-- Mean of a list of rationals (0 on the empty list, as a junk value). -/
def qmean (l : List ℚ) : ℚ :=
  l.sum / (l.length : ℚ)

/-- Centered cross sum of a paired sample: `Σ (x - mean x) * (y - mean y)`. -/
def centeredSum (p : List (ℚ × ℚ)) : ℚ :=
  (p.map (fun q => (q.1 - qmean (p.map Prod.fst)) * (q.2 - qmean (p.map Prod.snd)))).sum

/-- Centered sum of squares of the first components of a paired sample. -/
def sxxOf (p : List (ℚ × ℚ)) : ℚ :=
  centeredSum (p.map (fun q => (q.1, q.1)))

/-- Centered sum of squares of the second components of a paired sample. -/
def syyOf (p : List (ℚ × ℚ)) : ℚ :=
  centeredSum (p.map (fun q => (q.2, q.2)))

/-- Pearson correlation of two columns as pandas `corr` computes it:
`Sxy / sqrt(Sxx * Syy)` over the pairwise-complete observations; `none` models the
NaN pandas yields when either column is constant or the sample is degenerate. -/
noncomputable def pearson (xs ys : List (Option ℚ)) : Option ℝ :=
  if sxxOf (paired xs ys) * syyOf (paired xs ys) = 0 then none
  else some ((centeredSum (paired xs ys) : ℝ) /
    Real.sqrt ((sxxOf (paired xs ys) : ℝ) * (syyOf (paired xs ys) : ℝ)))

/-- Line 84's `.round(3)`: rounding to 3 decimals (half rounded up; the script's
float tie-breaking detail is immaterial to the claims proved here). -/
noncomputable def round3 (x : ℝ) : ℝ :=
  ((Int.floor (x * 1000 + 1 / 2) : ℤ) : ℝ) / 1000

/-- Line 84: entry (i, j) of `mm_sub[selected_features].corr().round(3)`. -/
noncomputable def correlationMatrix (t : List CleanRow) (i j : Fin 8) : Option ℝ :=
  Option.map round3 (pearson (colNum t (featAt i)) (colNum t (featAt j)))

/-! Concrete tables used to instantiate the theorems below. -/

/-- Example raw row: an at-large team that reached March Madness. -/
def rw1 : Row :=
  [("Season", Val.num 2010), ("Mapped ESPN Team Name", Val.str ("Alpha")),
   ("Adjusted Offensive Efficiency", Val.num 110), ("Adjusted Defensive Efficiency", Val.num 95),
   ("eFGPct", Val.num (1 / 2)), ("TOPct", Val.num (1 / 5)), ("AdjTempo", Val.num 67),
   ("PGOR", Val.num 100), ("PGDR", Val.num 99),
   ("Tournament Winner?", Val.str ("No")), ("Post-Season Tournament", Val.str ("March Madness"))]

/-- Example raw row: an at-large team that went to the NIT instead. -/
def rw2 : Row :=
  [("Season", Val.num 2012), ("Mapped ESPN Team Name", Val.str ("Beta")),
   ("Adjusted Offensive Efficiency", Val.num 105), ("Adjusted Defensive Efficiency", Val.num 98),
   ("eFGPct", Val.num (3 / 5)), ("TOPct", Val.num (1 / 4)), ("AdjTempo", Val.num 64),
   ("PGOR", Val.num 90), ("PGDR", Val.num 95),
   ("Tournament Winner?", Val.str ("No")), ("Post-Season Tournament", Val.str ("NIT"))]

/-- Example raw row: a conference tournament champion (dropped by the line 25 mask). -/
def rw3 : Row :=
  [("Season", Val.num 2013), ("Mapped ESPN Team Name", Val.str ("Gamma")),
   ("Adjusted Offensive Efficiency", Val.num 112), ("Adjusted Defensive Efficiency", Val.num 93),
   ("eFGPct", Val.num (11 / 20)), ("TOPct", Val.num (1 / 5)), ("AdjTempo", Val.num 70),
   ("PGOR", Val.num 104), ("PGDR", Val.num 97),
   ("Tournament Winner?", Val.str ("Yes")), ("Post-Season Tournament", Val.str ("March Madness"))]

/-- Example raw row: a 2005 season with no point-guard metrics (dropped only at line 62,
so it still reaches the missing-values plot). -/
def rw4 : Row :=
  [("Season", Val.num 2005), ("Mapped ESPN Team Name", Val.str ("Delta")),
   ("Adjusted Offensive Efficiency", Val.num 100), ("Adjusted Defensive Efficiency", Val.num 90),
   ("eFGPct", Val.num (47 / 100)), ("TOPct", Val.num (21 / 100)), ("AdjTempo", Val.num 66),
   ("PGOR", Val.na), ("PGDR", Val.na),
   ("Tournament Winner?", Val.str ("No")), ("Post-Season Tournament", Val.str ("NIT"))]

/-- Example raw row: a COVID-season artifact with `eFGPct = 0` (dropped at line 32). -/
def rw5 : Row :=
  [("Season", Val.num 2021), ("Mapped ESPN Team Name", Val.str ("Epsilon")),
   ("Adjusted Offensive Efficiency", Val.num 0), ("Adjusted Defensive Efficiency", Val.num 0),
   ("eFGPct", Val.num 0), ("TOPct", Val.num 0), ("AdjTempo", Val.num 0),
   ("PGOR", Val.num 0), ("PGDR", Val.num 0),
   ("Tournament Winner?", Val.str ("No")), ("Post-Season Tournament", Val.na)]

/-- Example raw table covering every pipeline filter. -/
def dfW : DataFrame where
  cols := requiredCols
  rows := [rw1, rw2, rw3, rw4, rw5]

/-- Cleaned image of `rw1`. -/
def cw1 : CleanRow where
  season := Val.num 2010
  school := Val.str ("Alpha")
  adjOE := Val.num 110
  adjDE := Val.num 95
  eFGPct := Val.num (1 / 2)
  tOPct := Val.num (1 / 5)
  adjTempo := Val.num 67
  pGOR := Val.num 100
  pGDR := Val.num 99
  marchMadness := Val.num 1

/-- Cleaned image of `rw2`. -/
def cw2 : CleanRow where
  season := Val.num 2012
  school := Val.str ("Beta")
  adjOE := Val.num 105
  adjDE := Val.num 98
  eFGPct := Val.num (3 / 5)
  tOPct := Val.num (1 / 4)
  adjTempo := Val.num 64
  pGOR := Val.num 90
  pGDR := Val.num 95
  marchMadness := Val.num 0

/-- Cleaned image of `rw4` (reaches the missing-values plot, not the later views). -/
def cw4 : CleanRow where
  season := Val.num 2005
  school := Val.str ("Delta")
  adjOE := Val.num 100
  adjDE := Val.num 90
  eFGPct := Val.num (47 / 100)
  tOPct := Val.num (21 / 100)
  adjTempo := Val.num 66
  pGOR := Val.na
  pGDR := Val.na
  marchMadness := Val.num 0

/-- A raw table whose cleaned table has a single row (hence constant columns). -/
def dfOneRow : DataFrame where
  cols := requiredCols
  rows := [rw1]

/-- A raw table lacking almost every required column, in particular the mask column. -/
def dfMissingCol : DataFrame where
  cols := ["Season"]
  rows := [[("Season", Val.num 2010)]]

/-! Helper lemmas about the pipeline. -/

/-- When the line 25-27 projection succeeds, its output is the winner-filtered,
projected row list. -/
theorem locStep_ok {df : DataFrame} {l : List SubRow} (h : locStep df = Except.ok l) :
    l = (df.rows.filter winnerMask).map toSubRow := by
  unfold locStep at h
  split at h
  · cases h; rfl
  · cases h

/-- Every row of the table at the missing-values plot is the derived, projected image
of a raw row that passed the winner mask and the zero filter. -/
theorem mem_tableAtMissingPlot {df : DataFrame} {t : List CleanRow}
    (h : tableAtMissingPlot df = Except.ok t) {r : CleanRow} (hr : r ∈ t) :
    ∃ raw, raw ∈ df.rows ∧ winnerMask raw = true ∧
      zeroKeep (dropWinner (toSubRow raw)) = true ∧
      r = deriveLabel (dropWinner (toSubRow raw)) := by
  unfold tableAtMissingPlot at h
  cases hls : locStep df with
  | error e => rw [hls] at h; cases h
  | ok l =>
    rw [hls] at h
    cases h
    rcases List.mem_map.mp hr with ⟨x, hx, hxr⟩
    rcases List.mem_filter.mp hx with ⟨hx1, hx2⟩
    rcases List.mem_map.mp hx1 with ⟨s, hs, hsx⟩
    rw [locStep_ok hls] at hs
    rcases List.mem_map.mp hs with ⟨raw, hraw, hrs⟩
    rcases List.mem_filter.mp hraw with ⟨hraw1, hraw2⟩
    refine ⟨raw, hraw1, hraw2, ?_, ?_⟩
    · rw [hrs, hsx]; exact hx2
    · rw [hrs, hsx, hxr]

/-- Every row of the cleaned table sits in the missing-plot table and passes the
line 62 season mask. -/
theorem mem_cleanedTable {df : DataFrame} {t : List CleanRow}
    (h : cleanedTable df = Except.ok t) {r : CleanRow} (hr : r ∈ t) :
    ∃ t5, tableAtMissingPlot df = Except.ok t5 ∧ r ∈ t5 ∧ seasonKeep r = true := by
  unfold cleanedTable at h
  cases hp : tableAtMissingPlot df with
  | error e => rw [hp] at h; cases h
  | ok t5 =>
    rw [hp] at h
    cases h
    exact ⟨t5, rfl, (List.mem_filter.mp hr).1, (List.mem_filter.mp hr).2⟩

/-- Provenance of a cleaned-table row: a raw source row passing all three masks,
whose derived image it is. -/
theorem mem_cleanedTable_src {df : DataFrame} {t : List CleanRow}
    (h : cleanedTable df = Except.ok t) {r : CleanRow} (hr : r ∈ t) :
    ∃ raw, raw ∈ df.rows ∧ winnerMask raw = true ∧
      zeroKeep (dropWinner (toSubRow raw)) = true ∧
      seasonKeep r = true ∧
      r = deriveLabel (dropWinner (toSubRow raw)) := by
  rcases mem_cleanedTable h hr with ⟨t5, h5, hr5, hsk⟩
  rcases mem_tableAtMissingPlot h5 hr5 with ⟨raw, h1, h2, h3, h4⟩
  exact ⟨raw, h1, h2, h3, hsk, h4⟩

/-! Helper lemmas about the Pearson correlation of line 84. -/

/-- Swapping the two columns swaps each pairwise-complete observation. -/
theorem paired_swap (xs ys : List (Option ℚ)) :
    paired ys xs = (paired xs ys).map Prod.swap := by
  induction xs generalizing ys with
  | nil => cases ys <;> simp [paired]
  | cons x xs ih =>
    cases ys with
    | nil => simp [paired]
    | cons y ys => cases x <;> cases y <;> simp [paired, ih]

/-- The centered cross sum is invariant under swapping the sample components. -/
theorem centeredSum_swap (p : List (ℚ × ℚ)) :
    centeredSum (p.map Prod.swap) = centeredSum p := by
  unfold centeredSum
  simp only [List.map_map, Function.comp_def, Prod.fst_swap, Prod.snd_swap]
  exact congrArg List.sum (List.map_congr_left (fun q _ => mul_comm _ _))

/-- Swapping the sample turns the first-component sum of squares into the second. -/
theorem sxxOf_swap (p : List (ℚ × ℚ)) : sxxOf (p.map Prod.swap) = syyOf p := by
  unfold sxxOf syyOf
  rw [List.map_map]
  rfl

/-- Swapping the sample turns the second-component sum of squares into the first. -/
theorem syyOf_swap (p : List (ℚ × ℚ)) : syyOf (p.map Prod.swap) = sxxOf p := by
  unfold sxxOf syyOf
  rw [List.map_map]
  rfl

/-- Pearson correlation is symmetric in its two columns. -/
theorem pearson_comm (xs ys : List (Option ℚ)) : pearson xs ys = pearson ys xs := by
  unfold pearson
  rw [paired_swap xs ys, sxxOf_swap, syyOf_swap, centeredSum_swap]
  rw [mul_comm (syyOf (paired xs ys)) (sxxOf (paired xs ys)),
    mul_comm ((syyOf (paired xs ys) : ℝ)) ((sxxOf (paired xs ys) : ℝ))]

/-- Pairing a column with itself duplicates its present values. -/
theorem paired_self (xs : List (Option ℚ)) :
    paired xs xs = (xs.filterMap id).map (fun a => (a, a)) := by
  induction xs with
  | nil => simp [paired]
  | cons x xs ih => cases x <;> simp [paired, ih]

/-- On a duplicated sample the centered cross sum is a sum of squares, hence
nonnegative. -/
theorem centeredSum_dup_nonneg (l : List ℚ) :
    0 ≤ centeredSum (l.map (fun a => (a, a))) := by
  unfold centeredSum
  simp only [List.map_map, Function.comp_def]
  apply List.sum_nonneg
  intro x hx
  rcases List.mem_map.mp hx with ⟨a, _, rfl⟩
  exact mul_self_nonneg _

/-- A column whose centered sum of squares is nonzero has self-correlation 1. -/
theorem pearson_self {xs : List (Option ℚ)}
    (h : sxxOf (paired xs xs) ≠ 0) : pearson xs xs = some 1 := by
  unfold pearson
  have hdup : paired xs xs = (xs.filterMap id).map (fun a => (a, a)) := paired_self xs
  have hxx : sxxOf (paired xs xs) = centeredSum (paired xs xs) := by
    rw [hdup]
    unfold sxxOf
    rw [List.map_map]
    rfl
  have hyy : syyOf (paired xs xs) = centeredSum (paired xs xs) := by
    rw [hdup]
    unfold syyOf
    rw [List.map_map]
    rfl
  have hnn : 0 ≤ centeredSum (paired xs xs) := by
    rw [hdup]
    exact centeredSum_dup_nonneg _
  rw [hxx] at h
  rw [hxx, hyy]
  have hS : centeredSum (paired xs xs) ≠ 0 := h
  have hposR : (0 : ℝ) < ((centeredSum (paired xs xs) : ℚ) : ℝ) := by
    exact_mod_cast lt_of_le_of_ne hnn (Ne.symm hS)
  rw [if_neg (mul_ne_zero hS hS), Real.sqrt_mul_self hposR.le, div_self hposR.ne']

/-- A constant (or degenerate) column has an undefined self-correlation, the
counterpart of the NaN pandas yields there. -/
theorem pearson_self_degenerate {xs : List (Option ℚ)}
    (h : sxxOf (paired xs xs) = 0) : pearson xs xs = none := by
  unfold pearson
  rw [h, zero_mul, if_pos rfl]

/-- Rounding 1 to three decimals gives back 1. -/
theorem round3_one : round3 1 = 1 := by
  unfold round3
  have h : Int.floor ((1 : ℝ) * 1000 + 1 / 2) = 1000 := by
    rw [Int.floor_eq_iff]
    constructor <;> norm_num
  rw [h]
  norm_num

/-- Tick-position lists of `linspaceTrunc` always have the requested length. -/
theorem linspaceTrunc_length (stop : ℤ) (k : Nat) : (linspaceTrunc stop k).length = k := by
  unfold linspaceTrunc
  split
  · rw [List.length_replicate]
  · rw [List.length_map, List.length_range]

/-! Evaluation of the pipeline on the concrete tables. -/

/-- The line 25-27 step on `dfW`: the champion row `rw3` is dropped, the rest kept. -/
theorem locStep_dfW :
    locStep dfW = Except.ok [toSubRow rw1, toSubRow rw2, toSubRow rw4, toSubRow rw5] := by
  simp [locStep, dfW, requiredCols, winnerMask, cellOf, rw1, rw2, rw3, rw4, rw5,
    List.lookup, List.filter]

/-- The table at the missing-values plot for `dfW`: the zero-artifact row `rw5` is
gone, the 2005 row `rw4` is still present. -/
theorem tableAtMissingPlot_dfW : tableAtMissingPlot dfW = Except.ok [cw1, cw2, cw4] := by
  simp [tableAtMissingPlot, locStep, dfW, requiredCols, winnerMask, zeroKeep, deriveLabel,
    dropWinner, toSubRow, cellOf, rw1, rw2, rw3, rw4, rw5, Except.map, cw1, cw2, cw4,
    List.lookup, List.filter]

/-- The cleaned table for `dfW`: the 2005 row is gone as well. -/
theorem cleanedTable_dfW : cleanedTable dfW = Except.ok [cw1, cw2] := by
  simp [cleanedTable, tableAtMissingPlot, locStep, dfW, requiredCols, winnerMask, zeroKeep,
    deriveLabel, dropWinner, toSubRow, cellOf, rw1, rw2, rw3, rw4, rw5, Except.map, cw1, cw2,
    cw4, List.lookup, List.filter, seasonKeep, gtNum,
    (by norm_num : ((2006 : ℚ) < 2010)), (by norm_num : ((2006 : ℚ) < 2012)),
    (by norm_num : ¬ ((2006 : ℚ) < 2005))]

/-- The cleaned table for the one-row table `dfOneRow`. -/
theorem cleanedTable_dfOneRow : cleanedTable dfOneRow = Except.ok [cw1] := by
  simp [cleanedTable, tableAtMissingPlot, locStep, dfOneRow, requiredCols, winnerMask, zeroKeep,
    deriveLabel, dropWinner, toSubRow, cellOf, rw1, Except.map, cw1, List.lookup, List.filter,
    seasonKeep, gtNum, (by norm_num : ((2006 : ℚ) < 2010))]

/-- A cell passing the pandas `> c` mask is a number strictly above `c`. -/
theorem gtNum_true {v : Val} {c : ℚ} (h : gtNum v c = true) :
    ∃ q, v = Val.num q ∧ c < q := by
  cases v with
  | num q => exact ⟨q, rfl, by simpa [gtNum] using h⟩
  | str s => simp [gtNum] at h
  | na => simp [gtNum] at h

/-! The claims. -/

/-- C1: for every row of the cleaned table, the derived March Madness label equals 1
if the source row's Post-Season Tournament cell is exactly the string March Madness,
equals 0 for any other value (missing included), and is never anything but 0 or 1. -/
theorem claim1_label_binary {df : DataFrame} {t : List CleanRow}
    (h : cleanedTable df = Except.ok t) {r : CleanRow} (hr : r ∈ t) :
    (∃ raw, raw ∈ df.rows ∧
      r.marchMadness = Val.num
        (if cellOf raw ("Post-Season Tournament") = Val.str ("March Madness") then 1 else 0)) ∧
    (r.marchMadness = Val.num 0 ∨ r.marchMadness = Val.num 1) := by
  rcases mem_cleanedTable_src h hr with ⟨raw, hmem, _, _, _, heq⟩
  have hml : r.marchMadness = Val.num
      (if cellOf raw ("Post-Season Tournament") = Val.str ("March Madness") then 1 else 0) := by
    rw [heq]
    rfl
  refine ⟨⟨raw, hmem, hml⟩, ?_⟩
  rw [hml]
  by_cases hc : cellOf raw ("Post-Season Tournament") = Val.str ("March Madness")
  · right
    rw [if_pos hc]
  · left
    rw [if_neg hc]

/-- C2: every row of the cleaned table has a numeric Season strictly greater than
2006; a raw row with Season 2005 therefore never reaches the cleaned table. -/
theorem claim2_season_gt2006 {df : DataFrame} {t : List CleanRow}
    (h : cleanedTable df = Except.ok t) {r : CleanRow} (hr : r ∈ t) :
    ∃ s : ℚ, r.season = Val.num s ∧ 2006 < s := by
  rcases mem_cleanedTable h hr with ⟨t5, _, _, hsk⟩
  exact gtNum_true hsk

/-- C3: no row of the cleaned table has eFGPct 0 or AdjDE 0. -/
theorem claim3_no_zero_artifacts {df : DataFrame} {t : List CleanRow}
    (h : cleanedTable df = Except.ok t) {r : CleanRow} (hr : r ∈ t) :
    r.eFGPct ≠ Val.num 0 ∧ r.adjDE ≠ Val.num 0 := by
  rcases mem_cleanedTable_src h hr with ⟨raw, _, _, hz, _, heq⟩
  have hz' : (dropWinner (toSubRow raw)).eFGPct ≠ Val.num 0 ∧
      (dropWinner (toSubRow raw)).adjDE ≠ Val.num 0 := of_decide_eq_true hz
  have he : r.eFGPct = (dropWinner (toSubRow raw)).eFGPct := by rw [heq]; rfl
  have ha : r.adjDE = (dropWinner (toSubRow raw)).adjDE := by rw [heq]; rfl
  rw [he, ha]
  exact hz'

/-- C4: every row the cleaned table retains comes from a raw row whose Tournament
Winner cell is exactly the string No — no automatic (conference champion) qualifier
is ever retained. -/
theorem claim4_no_auto_qualifiers {df : DataFrame} {t : List CleanRow}
    (h : cleanedTable df = Except.ok t) {r : CleanRow} (hr : r ∈ t) :
    ∃ raw, raw ∈ df.rows ∧ cellOf raw ("Tournament Winner?") = Val.str ("No") ∧
      r = deriveLabel (dropWinner (toSubRow raw)) := by
  rcases mem_cleanedTable_src h hr with ⟨raw, hmem, hw, _, _, heq⟩
  exact ⟨raw, hmem, of_decide_eq_true hw, heq⟩

/-- C5 (code evaluation): on a raw table lacking required columns the projection
step's KeyError propagates out of the whole pipeline unhandled — the script has no
error-handling path that would turn it into a user-facing message. -/
theorem claim5_missing_column_uncaught :
    cleanedTable dfMissingCol = Except.error ("KeyError") ∧
    missingGrid dfMissingCol = Except.error ("KeyError") := by
  constructor <;>
    simp [cleanedTable, missingGrid, tableAtMissingPlot, locStep, dfMissingCol, requiredCols,
      Except.map]

/-- C10: the first pipeline filter retains a raw row exactly when its Tournament
Winner cell is the string No; any other value — Yes, some other string, or a missing
cell — is excluded. -/
theorem claim10_first_filter_exact {df : DataFrame} {l : List SubRow}
    (h : locStep df = Except.ok l) {raw : Row} (hraw : raw ∈ df.rows) :
    toSubRow raw ∈ l ↔ cellOf raw ("Tournament Winner?") = Val.str ("No") := by
  rw [locStep_ok h]
  constructor
  · intro hm
    rcases List.mem_map.mp hm with ⟨raw2, hraw2, hEq⟩
    rcases List.mem_filter.mp hraw2 with ⟨_, hmask⟩
    calc cellOf raw ("Tournament Winner?") = (toSubRow raw).winner := rfl
      _ = (toSubRow raw2).winner := by rw [hEq]
      _ = Val.str ("No") := of_decide_eq_true hmask
  · intro hc
    exact List.mem_map.mpr ⟨raw, List.mem_filter.mpr ⟨hraw, decide_eq_true hc⟩, rfl⟩

/-- C6 counterexample: on `dfW` the grid the missing-values plot renders covers the
2005 row `cw4` (which violates the Season invariant and is absent from the table the
other views consume), so it is not the grid of the cleaned table. -/
theorem claim6_grid_mismatch_cex :
    missingGrid dfW = Except.ok (nanArray [cw1, cw2, cw4]) ∧
    cleanedTable dfW = Except.ok [cw1, cw2] ∧
    missingGrid dfW ≠ (cleanedTable dfW).map nanArray := by
  have h1 : missingGrid dfW = Except.ok (nanArray [cw1, cw2, cw4]) := by
    unfold missingGrid
    rw [tableAtMissingPlot_dfW]
    rfl
  refine ⟨h1, cleanedTable_dfW, ?_⟩
  rw [h1, cleanedTable_dfW]
  simp [Except.map, nanArray, isnaRow, cleanCells, cw1, cw2, cw4]

/-- C6 (amended): the missing-value map is the boolean presence/absence grid over
all 10 columns and all rows of the table as it stands at line 47 — after the winner
filter, projection, zero filter and label derivation, but before the Season > 2006
filter of line 62 — with entry 1 exactly at the missing cells. -/
theorem claim6_grid_prefilter {df : DataFrame} {t : List CleanRow}
    (h : tableAtMissingPlot df = Except.ok t) :
    missingGrid df = Except.ok (nanArray t) ∧
    (nanArray t).length = t.length ∧
    ∀ r ∈ t, (isnaRow r).length = 10 ∧
      ∀ k : Fin 10, (isnaRow r).getD k.val 0 =
        (if (cleanCells r).getD k.val Val.na = Val.na then 1 else 0) := by
  refine ⟨?_, ?_, ?_⟩
  · unfold missingGrid
    rw [h]
    rfl
  · unfold nanArray
    rw [List.length_map]
  · intro r hr
    refine ⟨by simp [isnaRow, cleanCells], ?_⟩
    intro k
    fin_cases k <;> rfl

/-- Witness for the amended C6 at the concrete table `dfW`. -/
theorem claim6_grid_prefilter_inst :
    tableAtMissingPlot dfW = Except.ok [cw1, cw2, cw4] ∧
    missingGrid dfW = Except.ok (nanArray [cw1, cw2, cw4]) := by
  have h := tableAtMissingPlot_dfW
  exact ⟨h, (claim6_grid_prefilter h).1⟩

/-- C7 counterexample: `dfOneRow` cleans to a single-row table; every selected
column is then constant, and the (0,0) diagonal entry of the correlation matrix is
undefined (NaN in pandas) rather than 1. -/
theorem claim7_diag_not_one_cex :
    cleanedTable dfOneRow = Except.ok [cw1] ∧
    correlationMatrix [cw1] 0 0 ≠ some 1 := by
  refine ⟨cleanedTable_dfOneRow, ?_⟩
  have h0 : correlationMatrix [cw1] 0 0 = none := by
    simp [correlationMatrix, pearson, paired, colNum, featAt, selectedFeatures, colCell, cw1,
      valToNum, sxxOf, syyOf, centeredSum, qmean]
  rw [h0]
  simp

/-- C7 (amended): for every cleaned table the rounded correlation matrix is
symmetric; a diagonal entry equals 1.0 when its column's centered sum of squares
over the pairwise-complete sample is nonzero, and is undefined (the NaN pandas
yields) when that sum is zero — a constant or degenerate column. -/
theorem claim7_corr_symm_diag {df : DataFrame} {t : List CleanRow}
    (_h : cleanedTable df = Except.ok t) :
    (∀ i j : Fin 8, correlationMatrix t i j = correlationMatrix t j i) ∧
    (∀ i : Fin 8, sxxOf (paired (colNum t (featAt i)) (colNum t (featAt i))) ≠ 0 →
      correlationMatrix t i i = some 1) ∧
    (∀ i : Fin 8, sxxOf (paired (colNum t (featAt i)) (colNum t (featAt i))) = 0 →
      correlationMatrix t i i = none) := by
  refine ⟨?_, ?_, ?_⟩
  · intro i j
    unfold correlationMatrix
    rw [pearson_comm]
  · intro i hS
    unfold correlationMatrix
    rw [pearson_self hS]
    simp [round3_one]
  · intro i hS
    unfold correlationMatrix
    rw [pearson_self_degenerate hS]
    rfl

/-- Witness for the amended C7 at `dfW`: a two-row cleaned table whose eFGPct
column is not constant, so its diagonal entry is exactly 1. -/
theorem claim7_corr_symm_diag_inst :
    cleanedTable dfW = Except.ok [cw1, cw2] ∧
    correlationMatrix [cw1, cw2] 0 1 = correlationMatrix [cw1, cw2] 1 0 ∧
    correlationMatrix [cw1, cw2] 0 0 = some 1 := by
  have h := cleanedTable_dfW
  have main := claim7_corr_symm_diag h
  refine ⟨h, main.1 0 1, main.2.1 0 ?_⟩
  simp [sxxOf, paired, colNum, featAt, selectedFeatures, colCell, cw1, cw2, valToNum,
    centeredSum, qmean]
  norm_num

/-- C8: the missing-value map's x-axis carries exactly min(10, row count) tick
positions — hence at most 10, whatever the number of rows of the plotted table. -/
theorem claim8_xticks_at_most_ten (t : List CleanRow) :
    (missingXTicks t).length = min 10 t.length ∧ (missingXTicks t).length ≤ 10 := by
  have h : (missingXTicks t).length = min 10 t.length := by
    unfold missingXTicks
    rw [linspaceTrunc_length]
    unfold nanArray
    rw [List.length_map]
  refine ⟨h, ?_⟩
  rw [h]
  exact Nat.min_le_left _ _

/-- C9: for every selection from the 8-option dropdown set, the histogram request
passed to the plotting library asks for 30 bins over exactly the selected column of
the cleaned table, one value per row. -/
theorem claim9_histogram_bins {df : DataFrame} {t : List CleanRow}
    (_h : cleanedTable df = Except.ok t) {c : ColId} (_hc : c ∈ opts) :
    (figHist t c).nbins = 30 ∧ (figHist t c).xdata = t.map (colCell c) ∧
    (figHist t c).xdata.length = t.length := by
  refine ⟨rfl, rfl, ?_⟩
  unfold figHist
  rw [List.length_map]

/-! Witness instances for the remaining claims with hypotheses. -/

/-- Witness for C1 at `dfW`, row `cw1`. -/
theorem claim1_label_binary_inst :
    cleanedTable dfW = Except.ok [cw1, cw2] ∧
    ((∃ raw, raw ∈ dfW.rows ∧
        cw1.marchMadness = Val.num
          (if cellOf raw ("Post-Season Tournament") = Val.str ("March Madness") then 1 else 0)) ∧
      (cw1.marchMadness = Val.num 0 ∨ cw1.marchMadness = Val.num 1)) := by
  have h := cleanedTable_dfW
  exact ⟨h, claim1_label_binary h (by simp)⟩

/-- Witness for C2 at `dfW`, row `cw1`. -/
theorem claim2_season_gt2006_inst :
    cleanedTable dfW = Except.ok [cw1, cw2] ∧
    ∃ s : ℚ, cw1.season = Val.num s ∧ 2006 < s := by
  have h := cleanedTable_dfW
  exact ⟨h, claim2_season_gt2006 h (by simp)⟩

/-- Witness for C3 at `dfW`, row `cw2`. -/
theorem claim3_no_zero_artifacts_inst :
    cleanedTable dfW = Except.ok [cw1, cw2] ∧
    cw2.eFGPct ≠ Val.num 0 ∧ cw2.adjDE ≠ Val.num 0 := by
  have h := cleanedTable_dfW
  exact ⟨h, claim3_no_zero_artifacts h (by simp)⟩

/-- Witness for C4 at `dfW`, row `cw1`. -/
theorem claim4_no_auto_qualifiers_inst :
    cleanedTable dfW = Except.ok [cw1, cw2] ∧
    ∃ raw, raw ∈ dfW.rows ∧ cellOf raw ("Tournament Winner?") = Val.str ("No") ∧
      cw1 = deriveLabel (dropWinner (toSubRow raw)) := by
  have h := cleanedTable_dfW
  exact ⟨h, claim4_no_auto_qualifiers h (by simp)⟩

/-- Witness for C9 at `dfW` with the AdjTempo selection of the spec scenario. -/
theorem claim9_histogram_bins_inst :
    cleanedTable dfW = Except.ok [cw1, cw2] ∧ ColId.adjTempo ∈ opts ∧
    (figHist [cw1, cw2] ColId.adjTempo).nbins = 30 ∧
    (figHist [cw1, cw2] ColId.adjTempo).xdata = [cw1, cw2].map (colCell ColId.adjTempo) := by
  have h := cleanedTable_dfW
  have hc : ColId.adjTempo ∈ opts := by simp [opts]
  have main := claim9_histogram_bins h hc
  exact ⟨h, hc, main.1, main.2.1⟩

/-- Witness for C10 at `dfW`: the kept row `rw1` (winner cell No) is retained. -/
theorem claim10_first_filter_exact_inst :
    locStep dfW = Except.ok [toSubRow rw1, toSubRow rw2, toSubRow rw4, toSubRow rw5] ∧
    (toSubRow rw1 ∈ [toSubRow rw1, toSubRow rw2, toSubRow rw4, toSubRow rw5] ↔
      cellOf rw1 ("Tournament Winner?") = Val.str ("No")) := by
  have h := locStep_dfW
  exact ⟨h, claim10_first_filter_exact h (by simp [dfW])⟩
